import Mathlib

/-!
Verification of the cgpa_calc computation engine (src/cgpa_app.py) against its
natural-language specification. The pure helper functions of the app are embedded
over the rational numbers: grade mapping (absolute and relative), score
normalization, the projection solver, the compute pipeline, and the aggregation
of grade points.
-/

namespace CgpaApp

/-- Letter grades of the app: Am and Bm and so forth stand for the strings
"A-", "B-", "C-" of the Python source. -/
inductive Letter
  | A | Am | B | Bm | C | Cm | D | E
  deriving DecidableEq, Repr

/-- Embedding of grade_point_and_letter_absolute (src/cgpa_app.py lines 10-27):
returns (grade point, letter, cutoff) under the absolute cutoff table. -/
def gradePointAndLetterAbsolute (total : ℚ) : ℤ × Letter × ℚ :=
  if total ≥ 90 then (10, Letter.A, 90)
  else if total ≥ 80 then (9, Letter.Am, 80)
  else if total ≥ 70 then (8, Letter.B, 70)
  else if total ≥ 60 then (7, Letter.Bm, 60)
  else if total ≥ 50 then (6, Letter.C, 50)
  else if total ≥ 45 then (5, Letter.Cm, 45)
  else if total ≥ 35 then (4, Letter.D, 35)
  else (2, Letter.E, 0)

/-- Embedding of build_relative_cutoffs (lines 29-33): cutoff of each letter is
mean + multiplier * std. The multiplier dict of the app always carries all eight
letters, so it is modelled as a total function on Letter. -/
def buildRelativeCutoffs (mean std : ℚ) (multipliers : Letter → ℚ) : Letter → ℚ :=
  fun letter => mean + multipliers letter * std

/-- The rank-ordered list of (letter, grade point) pairs used by
grade_point_and_letter_relative (line 36). -/
def gradeOrder : List (Letter × ℤ) :=
  [(Letter.A, 10), (Letter.Am, 9), (Letter.B, 8), (Letter.Bm, 7),
   (Letter.C, 6), (Letter.Cm, 5), (Letter.D, 4), (Letter.E, 2)]

/-- The for-loop of grade_point_and_letter_relative: scan the order list, return
the first (grade point, letter) whose cutoff the total meets, else (2, E). -/
def relLookup (total : ℚ) (cutoffs : Letter → ℚ) : List (Letter × ℤ) → ℤ × Letter
  | [] => (2, Letter.E)
  | (letter, gp) :: rest =>
      if total ≥ cutoffs letter then (gp, letter) else relLookup total cutoffs rest

/-- Embedding of grade_point_and_letter_relative (lines 35-40). -/
def gradePointAndLetterRelative (total : ℚ) (cutoffs : Letter → ℚ) : ℤ × Letter :=
  relLookup total cutoffs gradeOrder

/-- Embedding of total_percent_from_components (lines 42-47): pending marks
(None) contribute 0, and the total percent is the plain sum. -/
def totalPercentFromComponents (m1 m2 m3 : Option ℚ) : ℚ :=
  m1.getD 0 + m2.getD 0 + m3.getD 0

/-- Status strings of required_scores_to_reach_target: already_met,
impossible_no_remaining, impossible_exceed, possible. -/
inductive Status
  | alreadyMet | impossibleNoRemaining | impossibleExceed | possible
  deriving DecidableEq, Repr

/-- One entry of the required_proportional dict: suggested_total (None when the
component is not selected), current, max. -/
structure PropInfo where
  suggestedTotal : Option ℚ
  current : ℚ
  maxMark : ℚ
  deriving DecidableEq, Repr

/-- The dict returned by required_scores_to_reach_target. Keys that a branch of
the Python function does not emit are modelled as none. -/
structure ProjResult where
  status : Status
  need : ℚ
  remainingMax : Option ℚ
  requiredProportional : Option (PropInfo × PropInfo × PropInfo)
  requiredSingleComp : Option (Option ℚ × Option ℚ × Option ℚ)
  deriving DecidableEq, Repr

/-- Embedding of required_scores_to_reach_target (lines 49-103). Marks are
None for pending; remaining flags say which components will be attempted. -/
def requiredScoresToReachTarget (current : Option ℚ × Option ℚ × Option ℚ)
    (weights : ℚ × ℚ × ℚ) (remaining : Bool × Bool × Bool)
    (targetTotal : ℚ) : ProjResult :=
  let (m1, m2, m3) := current
  let (w1, w2, w3) := weights
  let (r1, r2, r3) := remaining
  let currentSum := m1.getD 0 + m2.getD 0 + m3.getD 0
  let need := targetTotal - currentSum
  let remainingMax := (if r1 then w1 else 0) + (if r2 then w2 else 0) + (if r3 then w3 else 0)
  if need ≤ 0 then
    { status := Status.alreadyMet, need := 0, remainingMax := none,
      requiredProportional := none, requiredSingleComp := none }
  else if remainingMax ≤ 0 then
    { status := Status.impossibleNoRemaining, need := need, remainingMax := none,
      requiredProportional := none, requiredSingleComp := none }
  else if need > remainingMax + (1e-9 : ℚ) then
    { status := Status.impossibleExceed, need := need, remainingMax := some remainingMax,
      requiredProportional := none, requiredSingleComp := none }
  else
    let totalWeightOfChosen := (if r1 then w1 else 0) + (if r2 then w2 else 0) + (if r3 then w3 else 0)
    let prop := fun (r : Bool) (w : ℚ) (curr : Option ℚ) =>
      if r then
        { suggestedTotal := some (min (curr.getD 0 + (w / totalWeightOfChosen) * need) w),
          current := curr.getD 0, maxMark := w : PropInfo }
      else
        { suggestedTotal := none, current := curr.getD 0, maxMark := w : PropInfo }
    let single := fun (r : Bool) (w : ℚ) =>
      if r then some (min (max 0 (need - (remainingMax - w))) w) else none
    { status := Status.possible, need := need, remainingMax := some remainingMax,
      requiredProportional := some (prop r1 w1 m1, prop r2 w2 m2, prop r3 w3 m3),
      requiredSingleComp := some (single r1 w1, single r2 w2, single r3 w3) }

/-- Embedding of the gp_to_total dict (line 388): partial map from grade point
to the minimum total percent, none for keys outside the table. -/
def gpToTotal (gp : ℤ) : Option ℚ :=
  if gp = 10 then some 90
  else if gp = 9 then some 80
  else if gp = 8 then some 70
  else if gp = 7 then some 60
  else if gp = 6 then some 50
  else if gp = 5 then some 45
  else if gp = 4 then some 35
  else if gp = 2 then some 0
  else none

/-- One course entry of courses_data (line 215): name, three marks (None when
pending), three weights. -/
structure CourseData where
  name : String
  ec1 : Option ℚ
  ec2 : Option ℚ
  ec3 : Option ℚ
  w1 : ℚ
  w2 : ℚ
  w3 : ℚ
  deriving DecidableEq, Repr

/-- The grading configuration of the sidebar. In relative mode, cohortStats is
the (mean, std) pair successfully derived from a parsable uploaded numeric
cohort sample (none when no upload parses), manualMean and manualStd are the
manual inputs (defaulting to 0), and multipliers the slider mapping. -/
inductive GradingMode
  | absolute
  | relative (cohortStats : Option (ℚ × ℚ)) (manualMean manualStd : ℚ)
      (multipliers : Letter → ℚ)

/-- The mean/std resolution of compute_pressed (lines 263-276): cohort-derived
stats win; else the manual pair is used only when both values are positive;
else no stats are available. -/
def resolveStats (cohortStats : Option (ℚ × ℚ)) (manualMean manualStd : ℚ) :
    Option (ℚ × ℚ) :=
  match cohortStats with
  | some st => some st
  | none => if manualMean > 0 ∧ manualStd > 0 then some (manualMean, manualStd) else none

/-- The per-course grade decision of compute_pressed (lines 262-284): relative
mode with available stats uses the relative mapper on the built cutoffs, and
falls back to the absolute mapper otherwise; absolute mode uses the absolute
mapper. -/
def gradeForTotal (mode : GradingMode) (total : ℚ) : ℤ × Letter :=
  match mode with
  | GradingMode.absolute =>
      let (gp, letter, _) := gradePointAndLetterAbsolute total
      (gp, letter)
  | GradingMode.relative cohortStats manualMean manualStd multipliers =>
      match resolveStats cohortStats manualMean manualStd with
      | none =>
          let (gp, letter, _) := gradePointAndLetterAbsolute total
          (gp, letter)
      | some (mean, std) =>
          gradePointAndLetterRelative total (buildRelativeCutoffs mean std multipliers)

/-- One row of the results table built by compute_pressed (lines 286-295). -/
structure Row where
  course : String
  total : ℚ
  gradePoint : ℤ
  letter : Letter
  passBool : Bool
  deriving DecidableEq, Repr

/-- Builds the result row of one course (lines 260-295): total from the
component sum, grade from the grading mode, PassBool as gp >= 4.5. -/
def mkRow (mode : GradingMode) (c : CourseData) : Row :=
  let total := totalPercentFromComponents c.ec1 c.ec2 c.ec3
  let (gp, letter) := gradeForTotal mode total
  { course := c.name, total := total, gradePoint := gp, letter := letter,
    passBool := decide ((gp : ℚ) ≥ (4.5 : ℚ)) }

/-- Embedding of the compute_pressed handler (lines 247-295): every course
whose three weights do not sum to 100 within 1e-6 is reported by name as a
configuration error, and any such course blocks the whole computation
(st.stop()); otherwise one row per course is produced. -/
def computePressed (mode : GradingMode) (courses : List CourseData) :
    Except (List String) (List Row) :=
  let bad := (courses.filter fun c => |c.w1 + c.w2 + c.w3 - 100| > (1e-6 : ℚ)).map
    (fun c => c.name)
  if bad = [] then Except.ok (courses.map (mkRow mode)) else Except.error bad

/-- Embedding of the CGPA aggregation (lines 330-331): keep the non-None grade
points, return their plain arithmetic mean, or None when there are none. -/
def cgpa (gradePoints : List (Option ℤ)) : Option ℚ :=
  let validGps := gradePoints.filterMap id
  if validGps.length > 0 then
    some (((validGps.map fun g => (g : ℚ)).sum) / validGps.length)
  else none

/-- Error taxonomy of the spec relevant to the normalizer guard. -/
inductive NormError
  | invalidConfiguration
  deriving DecidableEq, Repr

/-- Modelled from the spec: the normalize-from-class-highest mode of the Score
Normalizer is absent from this snapshot (src/cgpa_app.py lines 42-47 only
implement the direct-sum mode). Spec section 4.2 variant (a): a single
course-level highest H, total_percent = (sum of marks / H) * 100, guarded so
that H <= 0 fails with InvalidConfiguration instead of substituting a default
denominator. -/
def normalizeByCourseHighest (m1 m2 m3 : Option ℚ) (H : ℚ) : Except NormError ℚ :=
  if H ≤ 0 then Except.error NormError.invalidConfiguration
  else Except.ok ((m1.getD 0 + m2.getD 0 + m3.getD 0) / H * 100)

/-- Modelled from the spec: variant (b) of the normalize-from-class-highest
mode, absent from this snapshot. Each mark is rescaled by its per-component
highest, mark_i * weight_i / H_i, then summed; any H_i <= 0 fails with
InvalidConfiguration instead of substituting a default denominator. -/
def normalizeByComponentHighest (m1 m2 m3 : Option ℚ) (w1 w2 w3 H1 H2 H3 : ℚ) :
    Except NormError ℚ :=
  if H1 ≤ 0 ∨ H2 ≤ 0 ∨ H3 ≤ 0 then Except.error NormError.invalidConfiguration
  else Except.ok (m1.getD 0 / H1 * w1 + m2.getD 0 / H2 * w2 + m3.getD 0 / H3 * w3)

/-- Formula from the claims: the points still needed, target_percent minus the
current sum with absent marks treated as 0. -/
def needSpec (m1 m2 m3 : Option ℚ) (targetTotal : ℚ) : ℚ :=
  targetTotal - (m1.getD 0 + m2.getD 0 + m3.getD 0)

/-- Formula from the claims: the capacity, the sum of the weights of the
attempted components. -/
def capacitySpec (w1 w2 w3 : ℚ) (r1 r2 r3 : Bool) : ℚ :=
  (if r1 then w1 else 0) + (if r2 then w2 else 0) + (if r3 then w3 else 0)

/-- Formula from the claims: clamp(x, lo, hi). -/
def clampSpec (x lo hi : ℚ) : ℚ :=
  min (max x lo) hi

/-! ## Theorems -/

/-- C2: under the absolute policy the mapper returns the grade point and letter
of the highest cutoff band whose lower bound the total meets, with inclusive
lower bounds (exactly 90, 80, 70, 60, 50, 45, 35 map to the higher band), and
totals above 100 fall in the first band (grade point 10) since only the lower
bound is tested. -/
theorem absolute_mapper_bands (t : ℚ) :
    (90 ≤ t → gradePointAndLetterAbsolute t = (10, Letter.A, 90)) ∧
    (80 ≤ t → t < 90 → gradePointAndLetterAbsolute t = (9, Letter.Am, 80)) ∧
    (70 ≤ t → t < 80 → gradePointAndLetterAbsolute t = (8, Letter.B, 70)) ∧
    (60 ≤ t → t < 70 → gradePointAndLetterAbsolute t = (7, Letter.Bm, 60)) ∧
    (50 ≤ t → t < 60 → gradePointAndLetterAbsolute t = (6, Letter.C, 50)) ∧
    (45 ≤ t → t < 50 → gradePointAndLetterAbsolute t = (5, Letter.Cm, 45)) ∧
    (35 ≤ t → t < 45 → gradePointAndLetterAbsolute t = (4, Letter.D, 35)) ∧
    (t < 35 → gradePointAndLetterAbsolute t = (2, Letter.E, 0)) := by
  unfold gradePointAndLetterAbsolute
  refine ⟨?_, ?_, ?_, ?_, ?_, ?_, ?_, ?_⟩ <;> intros <;> split_ifs <;>
    first | rfl | linarith

/-- Witness for C2: boundary 90 and the supra-100 total 101 land in the top
band, boundary 45 in the C- band, and 20 in the default E band. -/
theorem absolute_mapper_bands_witness :
    gradePointAndLetterAbsolute 90 = (10, Letter.A, 90) ∧
    gradePointAndLetterAbsolute 101 = (10, Letter.A, 90) ∧
    gradePointAndLetterAbsolute 45 = (5, Letter.Cm, 45) ∧
    gradePointAndLetterAbsolute 20 = (2, Letter.E, 0) :=
  ⟨(absolute_mapper_bands 90).1 (by norm_num),
   (absolute_mapper_bands 101).1 (by norm_num),
   (absolute_mapper_bands 45).2.2.2.2.2.1 (by norm_num) (by norm_num),
   (absolute_mapper_bands 20).2.2.2.2.2.2.2 (by norm_num)⟩

/-- The loop of the relative mapper returns the first list entry whose cutoff
is at most the total, defaulting to (2, E). -/
theorem relLookup_eq_find (t : ℚ) (c : Letter → ℚ) (L : List (Letter × ℤ)) :
    relLookup t c L =
      (match L.find? (fun p => decide (c p.1 ≤ t)) with
       | some (letter, gp) => (gp, letter)
       | none => (2, Letter.E)) := by
  induction L with
  | nil => rfl
  | cons hd tl ih =>
      obtain ⟨letter, gp⟩ := hd
      by_cases h : c letter ≤ t
      · simp [relLookup, List.find?, h, ge_iff_le]
      · simp [relLookup, List.find?, h, ge_iff_le, ih]

/-- C7: under the relative policy every letter's cutoff equals
mean + multiplier * std, and for every total the mapper returns the first
letter in the rank order A, A-, B, B-, C, C-, D, E whose cutoff is at most the
total, defaulting to grade point 2 / letter E when no cutoff matches. -/
theorem relative_mapper_spec (total mean std : ℚ) (multipliers : Letter → ℚ) :
    (∀ letter, buildRelativeCutoffs mean std multipliers letter =
        mean + multipliers letter * std) ∧
    gradePointAndLetterRelative total (buildRelativeCutoffs mean std multipliers) =
      (match gradeOrder.find?
          (fun p => decide (buildRelativeCutoffs mean std multipliers p.1 ≤ total)) with
       | some (letter, gp) => (gp, letter)
       | none => (2, Letter.E)) :=
  ⟨fun _ => rfl,
   relLookup_eq_find total (buildRelativeCutoffs mean std multipliers) gradeOrder⟩

/-- C3: the target grade point is mapped to its percent floor via the table
10 to 90, 9 to 80, 8 to 70, 7 to 60, 6 to 50, 5 to 45, 4 to 35, 2 to 0, and
with need = target_percent minus current sum (absent marks as 0) and capacity
the sum of attempted weights, the projection status is already_met when
need is at most 0, impossible_no_remaining when need is positive and capacity
is 0, impossible_exceed when need exceeds capacity by more than the 1e-9
tolerance, and possible otherwise. -/
theorem projection_status_spec (m1 m2 m3 : Option ℚ) (w1 w2 w3 : ℚ)
    (r1 r2 r3 : Bool) (targetTotal : ℚ) :
    (gpToTotal 10 = some 90 ∧ gpToTotal 9 = some 80 ∧ gpToTotal 8 = some 70 ∧
     gpToTotal 7 = some 60 ∧ gpToTotal 6 = some 50 ∧ gpToTotal 5 = some 45 ∧
     gpToTotal 4 = some 35 ∧ gpToTotal 2 = some 0) ∧
    (needSpec m1 m2 m3 targetTotal ≤ 0 →
      (requiredScoresToReachTarget (m1, m2, m3) (w1, w2, w3) (r1, r2, r3)
        targetTotal).status = Status.alreadyMet) ∧
    (0 < needSpec m1 m2 m3 targetTotal →
      capacitySpec w1 w2 w3 r1 r2 r3 = 0 →
      (requiredScoresToReachTarget (m1, m2, m3) (w1, w2, w3) (r1, r2, r3)
        targetTotal).status = Status.impossibleNoRemaining) ∧
    (0 < needSpec m1 m2 m3 targetTotal →
      0 < capacitySpec w1 w2 w3 r1 r2 r3 →
      capacitySpec w1 w2 w3 r1 r2 r3 + (1e-9 : ℚ) < needSpec m1 m2 m3 targetTotal →
      (requiredScoresToReachTarget (m1, m2, m3) (w1, w2, w3) (r1, r2, r3)
        targetTotal).status = Status.impossibleExceed) ∧
    (0 < needSpec m1 m2 m3 targetTotal →
      0 < capacitySpec w1 w2 w3 r1 r2 r3 →
      needSpec m1 m2 m3 targetTotal ≤ capacitySpec w1 w2 w3 r1 r2 r3 + (1e-9 : ℚ) →
      (requiredScoresToReachTarget (m1, m2, m3) (w1, w2, w3) (r1, r2, r3)
        targetTotal).status = Status.possible) := by
  refine ⟨⟨rfl, rfl, rfl, rfl, rfl, rfl, rfl, rfl⟩, ?_, ?_, ?_, ?_⟩ <;>
    intros <;>
    simp only [requiredScoresToReachTarget, needSpec, capacitySpec,
      apply_ite ProjResult.status] at * <;>
    split_ifs at * <;>
    first | rfl | (exfalso; linarith)

/-- Witness for C3: Scenario C, marks 10 and 10 with EC3 pending and attempted,
weights 30/30/40, target total 90: need 70 exceeds capacity 40, so the status
is impossible_exceed. -/
theorem projection_status_spec_witness :
    (requiredScoresToReachTarget (some 10, some 10, none) (30, 30, 40)
      (false, false, true) 90).status = Status.impossibleExceed :=
  (projection_status_spec (some 10) (some 10) none 30 30 40 false false true
    90).2.2.2.1 (by norm_num [needSpec, Option.getD])
    (by norm_num [capacitySpec]) (by norm_num [needSpec, capacitySpec, Option.getD])

/-- The projection status is possible exactly when the need is positive, some
capacity remains, and the need does not exceed the capacity plus the 1e-9
tolerance. -/
theorem reach_possible_iff (m1 m2 m3 : Option ℚ) (w1 w2 w3 : ℚ)
    (r1 r2 r3 : Bool) (targetTotal : ℚ) :
    (requiredScoresToReachTarget (m1, m2, m3) (w1, w2, w3) (r1, r2, r3)
      targetTotal).status = Status.possible ↔
    (¬ targetTotal - (m1.getD 0 + m2.getD 0 + m3.getD 0) ≤ 0 ∧
     ¬ ((if r1 then w1 else 0) + (if r2 then w2 else 0) + (if r3 then w3 else 0)) ≤ 0 ∧
     ¬ targetTotal - (m1.getD 0 + m2.getD 0 + m3.getD 0) >
        ((if r1 then w1 else 0) + (if r2 then w2 else 0) + (if r3 then w3 else 0)) +
          (1e-9 : ℚ)) := by
  simp only [requiredScoresToReachTarget, apply_ite ProjResult.status]
  by_cases h1 : targetTotal - (m1.getD 0 + m2.getD 0 + m3.getD 0) ≤ 0 <;>
    by_cases h2 : ((if r1 then w1 else 0) + (if r2 then w2 else 0) +
      (if r3 then w3 else 0)) ≤ 0 <;>
    by_cases h3 : targetTotal - (m1.getD 0 + m2.getD 0 + m3.getD 0) >
      ((if r1 then w1 else 0) + (if r2 then w2 else 0) + (if r3 then w3 else 0)) +
        (1e-9 : ℚ) <;>
    simp [h1, h2, h3]

/-- C4: when the projection status is possible, the reported single-component
minimum of each attempted component equals clamp(need - (capacity - weight),
0, weight), and is absent for unattempted components. -/
theorem single_component_minimum_spec (m1 m2 m3 : Option ℚ) (w1 w2 w3 : ℚ)
    (r1 r2 r3 : Bool) (targetTotal : ℚ)
    (hstatus : (requiredScoresToReachTarget (m1, m2, m3) (w1, w2, w3) (r1, r2, r3)
      targetTotal).status = Status.possible) :
    (requiredScoresToReachTarget (m1, m2, m3) (w1, w2, w3) (r1, r2, r3)
      targetTotal).requiredSingleComp =
      some
        (if r1 then some (clampSpec (needSpec m1 m2 m3 targetTotal -
            (capacitySpec w1 w2 w3 r1 r2 r3 - w1)) 0 w1) else none,
         if r2 then some (clampSpec (needSpec m1 m2 m3 targetTotal -
            (capacitySpec w1 w2 w3 r1 r2 r3 - w2)) 0 w2) else none,
         if r3 then some (clampSpec (needSpec m1 m2 m3 targetTotal -
            (capacitySpec w1 w2 w3 r1 r2 r3 - w3)) 0 w3) else none) := by
  rw [reach_possible_iff] at hstatus
  obtain ⟨h1, h2, h3⟩ := hstatus
  simp only [requiredScoresToReachTarget]
  rw [if_neg h1, if_neg h2, if_neg h3]
  cases r1 <;> cases r2 <;> cases r3 <;>
    simp [needSpec, capacitySpec, clampSpec, max_comm]

/-- Witness for C4: Scenario B, marks 25 and 28 with EC3 pending and attempted,
weights 30/30/40, target total 70: status possible and the single-component
minimum for EC3 is 17. -/
theorem single_component_minimum_spec_witness :
    (requiredScoresToReachTarget (some 25, some 28, none) (30, 30, 40)
      (false, false, true) 70).status = Status.possible ∧
    (requiredScoresToReachTarget (some 25, some 28, none) (30, 30, 40)
      (false, false, true) 70).requiredSingleComp = some (none, none, some 17) := by
  have hstatus : (requiredScoresToReachTarget (some 25, some 28, none) (30, 30, 40)
      (false, false, true) 70).status = Status.possible := by
    norm_num [requiredScoresToReachTarget]
  refine ⟨hstatus, (single_component_minimum_spec (some 25) (some 28) none
    30 30 40 false false true 70 hstatus).trans ?_⟩
  norm_num [needSpec, capacitySpec, clampSpec, Option.getD]

/-- C5: when the projection status is possible, the suggested proportional
allocation of each attempted component equals current + (weight / capacity) *
need capped above at the weight, and no suggested allocation is produced for
components not flagged for attempt. -/
theorem proportional_allocation_spec (m1 m2 m3 : Option ℚ) (w1 w2 w3 : ℚ)
    (r1 r2 r3 : Bool) (targetTotal : ℚ)
    (hstatus : (requiredScoresToReachTarget (m1, m2, m3) (w1, w2, w3) (r1, r2, r3)
      targetTotal).status = Status.possible) :
    (requiredScoresToReachTarget (m1, m2, m3) (w1, w2, w3) (r1, r2, r3)
      targetTotal).requiredProportional =
      some
        (if r1 then
          { suggestedTotal := some (min (m1.getD 0 + (w1 / capacitySpec w1 w2 w3 r1 r2 r3) *
              needSpec m1 m2 m3 targetTotal) w1),
            current := m1.getD 0, maxMark := w1 }
         else { suggestedTotal := none, current := m1.getD 0, maxMark := w1 },
         if r2 then
          { suggestedTotal := some (min (m2.getD 0 + (w2 / capacitySpec w1 w2 w3 r1 r2 r3) *
              needSpec m1 m2 m3 targetTotal) w2),
            current := m2.getD 0, maxMark := w2 }
         else { suggestedTotal := none, current := m2.getD 0, maxMark := w2 },
         if r3 then
          { suggestedTotal := some (min (m3.getD 0 + (w3 / capacitySpec w1 w2 w3 r1 r2 r3) *
              needSpec m1 m2 m3 targetTotal) w3),
            current := m3.getD 0, maxMark := w3 }
         else { suggestedTotal := none, current := m3.getD 0, maxMark := w3 }) := by
  rw [reach_possible_iff] at hstatus
  obtain ⟨h1, h2, h3⟩ := hstatus
  simp only [requiredScoresToReachTarget]
  rw [if_neg h1, if_neg h2, if_neg h3]
  cases r1 <;> cases r2 <;> cases r3 <;>
    simp [needSpec, capacitySpec]

/-- Witness for C5: Scenario B again; EC3 gets suggested total 17 (its current
0 plus its full share of the need), EC1 and EC2 get no suggestion. -/
theorem proportional_allocation_spec_witness :
    (requiredScoresToReachTarget (some 25, some 28, none) (30, 30, 40)
      (false, false, true) 70).status = Status.possible ∧
    (requiredScoresToReachTarget (some 25, some 28, none) (30, 30, 40)
      (false, false, true) 70).requiredProportional =
      some ({ suggestedTotal := none, current := 25, maxMark := 30 },
            { suggestedTotal := none, current := 28, maxMark := 30 },
            { suggestedTotal := some 17, current := 0, maxMark := 40 }) := by
  have hstatus : (requiredScoresToReachTarget (some 25, some 28, none) (30, 30, 40)
      (false, false, true) 70).status = Status.possible := by
    norm_num [requiredScoresToReachTarget]
  refine ⟨hstatus, (proportional_allocation_spec (some 25) (some 28) none
    30 30 40 false false true 70 hstatus).trans ?_⟩
  norm_num [needSpec, capacitySpec, Option.getD]

/-- C6: when some course's three component weights do not sum to 100 within
1e-6, the compute call reports a configuration error naming that course and
produces no result rows at all, in particular no CourseResult for that
course. -/
theorem invalid_weights_block_compute (mode : GradingMode) (courses : List CourseData)
    (c : CourseData) (hc : c ∈ courses)
    (hbad : |c.w1 + c.w2 + c.w3 - 100| > (1e-6 : ℚ)) :
    (computePressed mode courses =
      Except.error ((courses.filter fun x => |x.w1 + x.w2 + x.w3 - 100| >
        (1e-6 : ℚ)).map fun x => x.name)) ∧
    c.name ∈ ((courses.filter fun x => |x.w1 + x.w2 + x.w3 - 100| >
        (1e-6 : ℚ)).map fun x => x.name) ∧
    ∀ rows, computePressed mode courses ≠ Except.ok rows := by
  have hmem : c ∈ courses.filter fun x =>
      |x.w1 + x.w2 + x.w3 - 100| > (1e-6 : ℚ) :=
    List.mem_filter.mpr ⟨hc, by simpa using hbad⟩
  have hne : ((courses.filter fun x => |x.w1 + x.w2 + x.w3 - 100| >
      (1e-6 : ℚ)).map fun x => x.name) ≠ [] :=
    List.ne_nil_of_mem (List.mem_map_of_mem _ hmem)
  refine ⟨?_, List.mem_map_of_mem _ hmem, ?_⟩
  · simp only [computePressed, if_neg hne]
  · intro rows
    simp only [computePressed, if_neg hne]
    exact fun h => Except.noConfusion h

/-- Witness for C6: Scenario E, a course with weights 30/20/40 (sum 90) makes
compute report the error naming the course and never return rows. -/
theorem invalid_weights_block_compute_witness :
    (computePressed GradingMode.absolute
      [{ name := "Course 1", ec1 := some 10, ec2 := some 10, ec3 := some 10,
         w1 := 30, w2 := 20, w3 := 40 }] =
      Except.error ["Course 1"]) ∧
    ∀ rows, computePressed GradingMode.absolute
      [{ name := "Course 1", ec1 := some 10, ec2 := some 10, ec3 := some 10,
         w1 := 30, w2 := 20, w3 := 40 }] ≠ Except.ok rows := by
  have h := invalid_weights_block_compute GradingMode.absolute
    [{ name := "Course 1", ec1 := some 10, ec2 := some 10, ec3 := some 10,
       w1 := 30, w2 := 20, w3 := 40 }]
    { name := "Course 1", ec1 := some 10, ec2 := some 10, ec3 := some 10,
      w1 := 30, w2 := 20, w3 := 40 }
    (by simp) (by norm_num)
  refine ⟨h.1.trans ?_, h.2.2⟩
  norm_num [List.filter]

/-- C8: when relative grading is selected but no cohort-derived stats exist
and the manual mean/std pair is not usable (not both positive), the whole
compute run coincides with the absolute-policy run: every course's grade point
and letter come from the absolute mapper. -/
theorem relative_fallback_to_absolute (manualMean manualStd : ℚ)
    (multipliers : Letter → ℚ) (courses : List CourseData)
    (h : ¬ (manualMean > 0 ∧ manualStd > 0)) :
    computePressed (GradingMode.relative none manualMean manualStd multipliers)
      courses = computePressed GradingMode.absolute courses := by
  have hrow : mkRow (GradingMode.relative none manualMean manualStd multipliers) =
      mkRow GradingMode.absolute := by
    funext c
    simp [mkRow, gradeForTotal, resolveStats, h]
  simp only [computePressed, hrow]

/-- Witness for C8: with no cohort stats and manual mean/std left at 0, the
relative-mode compute of one course equals the absolute-mode compute. -/
theorem relative_fallback_to_absolute_witness :
    computePressed (GradingMode.relative none 0 0 fun _ => 0)
      [{ name := "Course 1", ec1 := some 25, ec2 := some 28, ec3 := some 30,
         w1 := 30, w2 := 30, w3 := 40 }] =
    computePressed GradingMode.absolute
      [{ name := "Course 1", ec1 := some 25, ec2 := some 28, ec3 := some 30,
         w1 := 30, w2 := 30, w3 := 40 }] :=
  relative_fallback_to_absolute 0 0 (fun _ => 0)
    [{ name := "Course 1", ec1 := some 25, ec2 := some 28, ec3 := some 30,
       w1 := 30, w2 := 30, w3 := 40 }] (by norm_num)

/-- C9: a class-highest denominator that is not positive makes the normalizer
fail with InvalidConfiguration, in the course-level variant when H is not
positive and in the per-component variant when any of the three per-component
highests is not positive, and no total percent is produced in either case (no
default denominator is substituted). -/
theorem class_highest_guard (m1 m2 m3 : Option ℚ) (w1 w2 w3 H H1 H2 H3 : ℚ)
    (hH : H ≤ 0) (hHi : H1 ≤ 0 ∨ H2 ≤ 0 ∨ H3 ≤ 0) :
    normalizeByCourseHighest m1 m2 m3 H =
      Except.error NormError.invalidConfiguration ∧
    (∀ q, normalizeByCourseHighest m1 m2 m3 H ≠ Except.ok q) ∧
    normalizeByComponentHighest m1 m2 m3 w1 w2 w3 H1 H2 H3 =
      Except.error NormError.invalidConfiguration ∧
    (∀ q, normalizeByComponentHighest m1 m2 m3 w1 w2 w3 H1 H2 H3 ≠
      Except.ok q) := by
  have h1 : normalizeByCourseHighest m1 m2 m3 H =
      Except.error NormError.invalidConfiguration := by
    simp only [normalizeByCourseHighest, if_pos hH]
  have h2 : normalizeByComponentHighest m1 m2 m3 w1 w2 w3 H1 H2 H3 =
      Except.error NormError.invalidConfiguration := by
    simp only [normalizeByComponentHighest, if_pos hHi]
  refine ⟨h1, fun q hq => ?_, h2, fun q hq => ?_⟩
  · rw [h1] at hq
    exact Except.noConfusion hq
  · rw [h2] at hq
    exact Except.noConfusion hq

/-- Witness for C9: a course-level highest of 0 is rejected, and a
per-component highest of 0 in the middle component alone (the other two
positive) is rejected as well. -/
theorem class_highest_guard_witness :
    normalizeByCourseHighest (some 10) (some 10) (some 10) 0 =
      Except.error NormError.invalidConfiguration ∧
    normalizeByComponentHighest (some 10) (some 10) (some 10) 30 30 40 50 0 50 =
      Except.error NormError.invalidConfiguration := by
  have h := class_highest_guard (some 10) (some 10) (some 10) 30 30 40 0 50 0 50
    (by norm_num) (Or.inr (Or.inl (by norm_num)))
  exact ⟨h.1, h.2.2.1⟩

/-- Every grade point the absolute mapper produces lies in
{2, 4, 5, 6, 7, 8, 9, 10}. -/
theorem absolute_gp_mem (t : ℚ) :
    (gradePointAndLetterAbsolute t).1 ∈ ([2, 4, 5, 6, 7, 8, 9, 10] : List ℤ) := by
  unfold gradePointAndLetterAbsolute
  split_ifs <;> simp

/-- Every grade point the relative mapper produces lies in
{2, 4, 5, 6, 7, 8, 9, 10}. -/
theorem relative_gp_mem (t : ℚ) (cutoffs : Letter → ℚ) :
    (gradePointAndLetterRelative t cutoffs).1 ∈
      ([2, 4, 5, 6, 7, 8, 9, 10] : List ℤ) := by
  simp only [gradePointAndLetterRelative, gradeOrder, relLookup]
  split_ifs <;> simp

/-- Every grade point the compute pipeline produces lies in
{2, 4, 5, 6, 7, 8, 9, 10}, in either grading mode. -/
theorem gradeForTotal_mem (mode : GradingMode) (t : ℚ) :
    (gradeForTotal mode t).1 ∈ ([2, 4, 5, 6, 7, 8, 9, 10] : List ℤ) := by
  cases mode with
  | absolute => exact absolute_gp_mem t
  | relative cohortStats manualMean manualStd multipliers =>
      cases h : resolveStats cohortStats manualMean manualStd with
      | none =>
          simp only [gradeForTotal, h]
          exact absolute_gp_mem t
      | some st =>
          obtain ⟨mean, std⟩ := st
          simp only [gradeForTotal, h]
          exact relative_gp_mem t (buildRelativeCutoffs mean std multipliers)

/-- C10: for every computed course result the pass flag is true exactly when
the grade point is at least 4.5; since the produced grade points are integers
from {2, 4, 5, 6, 7, 8, 9, 10}, this is the same as grade point at least 5, so
exactly C- and better pass while D and E fail. -/
theorem pass_flag_spec (mode : GradingMode) (c : CourseData) :
    (mkRow mode c).gradePoint ∈ ([2, 4, 5, 6, 7, 8, 9, 10] : List ℤ) ∧
    ((mkRow mode c).passBool = true ↔
      ((mkRow mode c).gradePoint : ℚ) ≥ (4.5 : ℚ)) ∧
    ((mkRow mode c).passBool = true ↔ (mkRow mode c).gradePoint ≥ 5) := by
  have hgp : (mkRow mode c).gradePoint =
      (gradeForTotal mode (totalPercentFromComponents c.ec1 c.ec2 c.ec3)).1 := rfl
  have hpass : (mkRow mode c).passBool =
      decide (((mkRow mode c).gradePoint : ℚ) ≥ (4.5 : ℚ)) := rfl
  refine ⟨hgp ▸ gradeForTotal_mem mode _, ?_, ?_⟩
  · rw [hpass]
    exact decide_eq_true_iff
  · rw [hpass, decide_eq_true_iff]
    constructor
    · intro h
      by_contra hlt
      push_neg at hlt
      have h4 : (mkRow mode c).gradePoint ≤ 4 := by omega
      have h4q : ((mkRow mode c).gradePoint : ℚ) ≤ 4 := by exact_mod_cast h4
      norm_num at h
      linarith
    · intro h
      have h5 : ((mkRow mode c).gradePoint : ℚ) ≥ 5 := by exact_mod_cast h
      norm_num
      linarith

/-- C1 is false of the code: the aggregation at src/cgpa_app.py lines 330-331
takes the plain mean of the grade points, ignoring credit units entirely. For
grade points 7 and 8 with credit units 20 and 24 (Scenario D of the spec), the
code yields 7.5 while the credit-weighted formula yields 83/11. -/
theorem cgpa_not_credit_weighted :
    cgpa [some 7, some 8] = some (15 / 2) ∧
    ((7 * 20 + 8 * 24 : ℚ) / (20 + 24)) ≠ (15 / 2 : ℚ) := by
  have hfm : ([some (7 : ℤ), some 8].filterMap id) = [7, 8] := rfl
  constructor
  · simp only [cgpa, hfm]
    norm_num
  · norm_num

/-- C1 amended: the aggregated grade-point average is the unweighted
arithmetic mean of the non-None grade points (which agrees with the
credit-weighted formula exactly when every course carries the same positive
credit units u), and it is none (undefined, not zero) when there are no grade
points. -/
theorem cgpa_unweighted_mean (gradePoints : List (Option ℤ)) (u : ℚ)
    (hu : 0 < u) (hne : gradePoints.filterMap id ≠ []) :
    cgpa [] = none ∧
    cgpa gradePoints = some
      (((gradePoints.filterMap id).map fun g => (g : ℚ)).sum /
        (gradePoints.filterMap id).length) ∧
    (((gradePoints.filterMap id).map fun g => (g : ℚ)).sum /
        (gradePoints.filterMap id).length =
      ((gradePoints.filterMap id).map fun g => (g : ℚ) * u).sum /
        ((gradePoints.filterMap id).length * u)) := by
  have hlen : 0 < (gradePoints.filterMap id).length := List.length_pos.mpr hne
  refine ⟨rfl, ?_, ?_⟩
  · simp only [cgpa]
    rw [if_pos hlen]
  · rw [List.sum_map_mul_right, mul_div_mul_right _ _ (ne_of_gt hu)]

/-- Witness for C1 amended: grade points 7 and 8 with common unit 1 average
to 15/2, and the empty aggregation is none. -/
theorem cgpa_unweighted_mean_witness :
    (0 : ℚ) < 1 ∧ ([some (7 : ℤ), some 8].filterMap id ≠ []) ∧
    (cgpa [] = none ∧
     cgpa [some 7, some 8] = some
       ((([some (7 : ℤ), some 8].filterMap id).map fun g => (g : ℚ)).sum /
         ([some (7 : ℤ), some 8].filterMap id).length) ∧
     ((([some (7 : ℤ), some 8].filterMap id).map fun g => (g : ℚ)).sum /
         ([some (7 : ℤ), some 8].filterMap id).length =
       (([some (7 : ℤ), some 8].filterMap id).map fun g => (g : ℚ) * 1).sum /
         (([some (7 : ℤ), some 8].filterMap id).length * 1))) :=
  ⟨by norm_num, by decide,
   cgpa_unweighted_mean [some 7, some 8] 1 (by norm_num) (by decide)⟩

end CgpaApp
